import Mathlib

-- Verification development for the GA4 reporting proxy (src/app.py).
-- The embedded core is the TTL cache (app.py lines 38-52), the per-endpoint
-- query fingerprints, and the response normalization performed by the five
-- report handlers.  Wall-clock instants and TTLs are modelled as exact
-- rationals (the Python code uses time.time() floats); numeric strings are
-- parsed with exact decimal semantics, so `int(float(s))` is modelled as an
-- exact parse followed by truncation toward zero.  Upstream GA4 calls and
-- client construction are modelled as an opaque fallible fetch closure.

-- ===================== TTL cache (app.py lines 38-52) =====================

-- cache = {}  : key -> (expiry_ts, value); absent key = no entry.
abbrev Cache (α : Type) := String → Option (ℚ × α)

def emptyCache (α : Type) : Cache α := fun _ => none

-- CACHE_TTL = int(os.getenv("GA4_CACHE_TTL_SEC", "5")); modelled at its default.
def CACHE_TTL : ℚ := 5

-- def get_cached(key): returns None on missing entry; on `time.time() > expiry`
-- pops the stale entry and returns None; otherwise returns the stored value.
-- The returned pair is (cache state after the lookup, result).
def get_cached {α : Type} (c : Cache α) (now : ℚ) (key : String) :
    Cache α × Option α :=
  match c key with
  | none => (c, none)
  | some (expiry, value) =>
    if expiry < now then (fun k => if k = key then none else c k, none)
    else (c, some value)

-- def set_cached(key, value, ttl=CACHE_TTL): cache[key] = (time.time() + ttl, value)
def set_cached {α : Type} (c : Cache α) (now : ℚ) (key : String) (value : α)
    (ttl : ℚ) : Cache α :=
  fun k => if k = key then some (now + ttl, value) else c k

-- ============== Python numeric-string semantics (exact model) ==============

-- Decimal value of a digit string, most significant digit first.
def digitsVal (ds : List Char) : ℕ :=
  ds.foldl (fun a c => 10 * a + (c.toNat - 48)) 0

-- Characters stripped by Python's int()/float() around a numeric literal.
def pySpace (c : Char) : Bool :=
  c == ' ' || c == '\t' || c == '\n' || c == '\r' || c == '\x0b' || c == '\x0c'

def stripPySpace (cs : List Char) : List Char :=
  ((cs.dropWhile pySpace).reverse.dropWhile pySpace).reverse

-- A non-empty all-digit run, else failure.
def decDigits? (ds : List Char) : Option ℕ :=
  if ds ≠ [] ∧ ds.all Char.isDigit then some (digitsVal ds) else none

-- Python int(s): optional surrounding whitespace, optional sign, decimal
-- digits; none models a raised ValueError.  (Underscore digit separators are
-- not modelled.)
def pyInt? (s : String) : Option ℤ :=
  match stripPySpace s.data with
  | '+' :: ds => (decDigits? ds).map (fun n => (n : ℤ))
  | '-' :: ds => (decDigits? ds).map (fun n => -(n : ℤ))
  | ds => (decDigits? ds).map (fun n => (n : ℤ))

-- Exact decimal value mant * 10^exp with an explicit sign bit.
structure DecValue where
  mant : ℕ
  exp : ℤ
  neg : Bool
deriving DecidableEq

def DecValue.val (d : DecValue) : ℚ :=
  (cond d.neg (-(d.mant : ℚ)) (d.mant : ℚ)) * (10 : ℚ) ^ d.exp

-- Result of Python float(s): a finite value, a signed infinity, or nan.
inductive PyFloat where
  | finite : DecValue → PyFloat
  | infinite : Bool → PyFloat
  | nan : PyFloat
deriving DecidableEq

-- Optional exponent part: empty input means exponent 0; otherwise 'e'/'E',
-- an optional sign and a non-empty digit run consuming the whole rest.
def parseExpPart : List Char → Option ℤ
  | [] => some 0
  | c :: rest =>
    if c = 'e' ∨ c = 'E' then
      match rest with
      | '+' :: ds => (decDigits? ds).map (fun n => (n : ℤ))
      | '-' :: ds => (decDigits? ds).map (fun n => -(n : ℤ))
      | ds => (decDigits? ds).map (fun n => (n : ℤ))
    else none

-- Mantissa `digits [. digits]` with at least one digit; returns the joined
-- digit value, the number of fractional digits, and the unconsumed rest.
def parseMantissa (cs : List Char) : Option (ℕ × ℕ × List Char) :=
  let ip := cs.takeWhile Char.isDigit
  let rest := cs.dropWhile Char.isDigit
  match rest with
  | '.' :: rest2 =>
    let fp := rest2.takeWhile Char.isDigit
    let rest3 := rest2.dropWhile Char.isDigit
    if ip.isEmpty && fp.isEmpty then none
    else some (digitsVal (ip ++ fp), fp.length, rest3)
  | _ => if ip.isEmpty then none else some (digitsVal ip, 0, rest)

def pyFloatUnsigned (cs : List Char) : Option PyFloat :=
  let lower := cs.map Char.toLower
  if lower = "inf".data ∨ lower = "infinity".data then some (PyFloat.infinite false)
  else if lower = "nan".data then some PyFloat.nan
  else
    match parseMantissa cs with
    | none => none
    | some (m, flen, rest) =>
      match parseExpPart rest with
      | none => none
      | some ex => some (PyFloat.finite ⟨m, ex - flen, false⟩)

def pyNeg : PyFloat → PyFloat
  | PyFloat.finite d => PyFloat.finite ⟨d.mant, d.exp, !d.neg⟩
  | PyFloat.infinite b => PyFloat.infinite (!b)
  | PyFloat.nan => PyFloat.nan

-- Python float(s); none models a raised ValueError.
def pyFloat? (s : String) : Option PyFloat :=
  match stripPySpace s.data with
  | '+' :: rest => pyFloatUnsigned rest
  | '-' :: rest => (pyFloatUnsigned rest).map pyNeg
  | rest => pyFloatUnsigned rest

-- Truncated magnitude of mant * 10^exp (floor of a non-negative value).
def truncMag (mant : ℕ) (exp : ℤ) : ℕ :=
  if 0 ≤ exp then mant * 10 ^ exp.toNat else mant / 10 ^ (-exp).toNat

-- Truncation toward zero of a signed exact decimal, as Python int() performs
-- on a finite float.
def truncDec (d : DecValue) : ℤ :=
  cond d.neg (-(truncMag d.mant d.exp : ℤ)) (truncMag d.mant d.exp : ℤ)

-- Python int() applied to a float: raises (none) on infinities and nan.
def pyIntOfFloat : PyFloat → Option ℤ
  | PyFloat.finite d => some (truncDec d)
  | PyFloat.infinite _ => none
  | PyFloat.nan => none

-- int(float(s)); none models any raised exception.
def intFloat? (s : String) : Option ℤ := (pyFloat? s).bind pyIntOfFloat

-- try: int(float(s)) except Exception: 0   (app.py lines 88-91, 137-141,
-- 182-186, 228-232, 266-271)
def coerceMetric (s : String) : ℤ := (intFloat? s).getD 0

-- The same coercion when the metric value may be absent altogether.
def coerceMetricOpt : Option String → ℤ
  | none => 0
  | some s => coerceMetric s

-- ================= raw rows and normalization (per endpoint) =================

-- One raw GA4 report row: parallel dimension-value and metric-value lists.
structure RawRow where
  dimension_values : List String
  metric_values : List String
deriving DecidableEq

-- value = 0; if row.metric_values: value = try int(float(mv[0])) except 0
def coerceFirstMetric (mv : List String) : ℤ :=
  match mv with
  | [] => 0
  | v :: _ => coerceMetric v

-- dv[0] if dimension_values non-empty else "(unknown)"
def dim0 (dv : List String) : String :=
  match dv with
  | v :: _ => v
  | [] => "(unknown)"

-- dv[1] if len(dimension_values) > 1 else "(unknown)"
def dim1 (dv : List String) : String :=
  match dv with
  | _ :: v :: _ => v
  | _ => "(unknown)"

-- total = 0; for row in rows: total += coerced first metric (app.py 83-95)
def realtimeActiveTotal (rows : List RawRow) : ℤ :=
  rows.foldl (fun total r => total + coerceFirstMetric r.metric_values) 0

structure PageRow where
  pageTitle : String
  activeUsers : ℤ
deriving DecidableEq

structure UrlRow where
  pageLocation : String
  screenPageViews : ℤ
deriving DecidableEq

structure TrafficRow where
  source : String
  medium : String
  sessions : ℤ
deriving DecidableEq

structure CountryRow where
  country : String
  activeUsers : ℤ
deriving DecidableEq

def normalizePageRow (r : RawRow) : PageRow :=
  ⟨dim0 r.dimension_values, coerceFirstMetric r.metric_values⟩

def normalizeUrlRow (r : RawRow) : UrlRow :=
  ⟨dim0 r.dimension_values, coerceFirstMetric r.metric_values⟩

def normalizeTrafficRow (r : RawRow) : TrafficRow :=
  ⟨dim0 r.dimension_values, dim1 r.dimension_values, coerceFirstMetric r.metric_values⟩

def normalizeCountryRow (r : RawRow) : CountryRow :=
  ⟨dim0 r.dimension_values, coerceFirstMetric r.metric_values⟩

-- The per-row loops rows.append(...) (app.py 132-142, 178-187, 223-233,
-- 262-272): one output row per input row, in input order.
def realtimePagesRows (raw : List RawRow) : List PageRow :=
  raw.map normalizePageRow

def urlsRows (raw : List RawRow) : List UrlRow :=
  raw.map normalizeUrlRow

def trafficRows (raw : List RawRow) : List TrafficRow :=
  raw.map normalizeTrafficRow

def topCountriesRows (raw : List RawRow) : List CountryRow :=
  raw.map normalizeCountryRow

-- ===================== fingerprints (cache keys) =====================

-- f"urls:{start_date}:{end_date}"  (app.py line 161)
def urls_cache_key (start_date end_date : String) : String :=
  "urls:" ++ start_date ++ ":" ++ end_date

-- f"traffic:{start_date}:{end_date}:{limit}"  (app.py line 207)
def traffic_cache_key (start_date end_date : String) (limit : ℤ) : String :=
  "traffic:" ++ start_date ++ ":" ++ end_date ++ ":" ++ toString limit

-- ===================== payloads and handlers =====================

structure ActivePayload where
  totalActive : ℤ
  fetchedAt : String
deriving DecidableEq

structure PagesPayload where
  rows : List PageRow
  fetchedAt : String
deriving DecidableEq

structure UrlsPayload where
  rows : List UrlRow
  rowCount : ℕ
  fetchedAt : String
deriving DecidableEq

structure TrafficPayload where
  rows : List TrafficRow
  rowCount : ℕ
  fetchedAt : String
deriving DecidableEq

structure CountriesPayload where
  rows : List CountryRow
  fetchedAt : String
deriving DecidableEq

-- jsonify(payload) with implicit 200, or (jsonify({"error": msg}), code).
inductive HttpResponse (π : Type) where
  | payload : π → HttpResponse π
  | errorJson : String → ℕ → HttpResponse π
deriving DecidableEq

-- Each handler returns (cache state afterwards, HTTP response, number of
-- upstream fetches performed).  `fetch` bundles get_ga_client() plus the
-- report request; Except.error is any exception raised inside the try block,
-- carrying str(e).  Every stored payload is a non-empty Python dict, hence
-- truthy, so `if cached:` takes the hit branch exactly when the lookup
-- returned a value.

-- GET /realtime-active  (app.py 63-101)
def realtime_active (c : Cache ActivePayload) (now : ℚ) (nowStr : String)
    (fetch : Unit → Except String (List RawRow)) :
    Cache ActivePayload × HttpResponse ActivePayload × ℕ :=
  let r := get_cached c now "realtime-active"
  match r.2 with
  | some cached => (r.1, HttpResponse.payload cached, 0)
  | none =>
    match fetch () with
    | Except.ok resp =>
      let out : ActivePayload := ⟨realtimeActiveTotal resp, nowStr⟩
      (set_cached r.1 now "realtime-active" out CACHE_TTL, HttpResponse.payload out, 1)
    | Except.error e => (r.1, HttpResponse.errorJson e 500, 1)

-- GET /realtime-pages  (app.py 111-148)
def realtime_pages (c : Cache PagesPayload) (now : ℚ) (nowStr : String)
    (fetch : Unit → Except String (List RawRow)) :
    Cache PagesPayload × HttpResponse PagesPayload × ℕ :=
  let r := get_cached c now "realtime-pages"
  match r.2 with
  | some cached => (r.1, HttpResponse.payload cached, 0)
  | none =>
    match fetch () with
    | Except.ok resp =>
      let out : PagesPayload := ⟨realtimePagesRows resp, nowStr⟩
      (set_cached r.1 now "realtime-pages" out CACHE_TTL, HttpResponse.payload out, 1)
    | Except.error e => (r.1, HttpResponse.errorJson e 500, 1)

-- GET /urls  (app.py 151-193); fetch receives the effective date range.
def urls_report (c : Cache UrlsPayload) (now : ℚ) (nowStr : String)
    (start_date? end_date? : Option String)
    (fetch : String → String → Except String (List RawRow)) :
    Cache UrlsPayload × HttpResponse UrlsPayload × ℕ :=
  let start_date := start_date?.getD "7daysAgo"
  let end_date := end_date?.getD "today"
  let cache_key := urls_cache_key start_date end_date
  let r := get_cached c now cache_key
  match r.2 with
  | some cached => (r.1, HttpResponse.payload cached, 0)
  | none =>
    match fetch start_date end_date with
    | Except.ok resp =>
      let rows := urlsRows resp
      let out : UrlsPayload := ⟨rows, rows.length, nowStr⟩
      (set_cached r.1 now cache_key out 30, HttpResponse.payload out, 1)
    | Except.error e => (r.1, HttpResponse.errorJson e 500, 1)

-- GET /traffic  (app.py 196-239).  limit = int(request.args.get("limit","100"))
-- runs before the cache lookup and outside the try block: a parse failure is
-- an uncaught exception, modelled as the outer Except.error.
def traffic_report (c : Cache TrafficPayload) (now : ℚ) (nowStr : String)
    (start_date? end_date? limit? : Option String)
    (fetch : String → String → ℤ → Except String (List RawRow)) :
    Except String (Cache TrafficPayload × HttpResponse TrafficPayload × ℕ) :=
  let start_date := start_date?.getD "7daysAgo"
  let end_date := end_date?.getD "today"
  match pyInt? (limit?.getD "100") with
  | none => Except.error "ValueError"
  | some limit =>
    let cache_key := traffic_cache_key start_date end_date limit
    let r := get_cached c now cache_key
    match r.2 with
    | some cached => Except.ok (r.1, HttpResponse.payload cached, 0)
    | none =>
      match fetch start_date end_date limit with
      | Except.ok resp =>
        let rows := trafficRows resp
        let out : TrafficPayload := ⟨rows, rows.length, nowStr⟩
        Except.ok (set_cached r.1 now cache_key out 30, HttpResponse.payload out, 1)
      | Except.error e => Except.ok (r.1, HttpResponse.errorJson e 500, 1)

-- GET /top-countries  (app.py 242-278)
def top_countries (c : Cache CountriesPayload) (now : ℚ) (nowStr : String)
    (fetch : Unit → Except String (List RawRow)) :
    Cache CountriesPayload × HttpResponse CountriesPayload × ℕ :=
  let r := get_cached c now "top-countries"
  match r.2 with
  | some cached => (r.1, HttpResponse.payload cached, 0)
  | none =>
    match fetch () with
    | Except.ok resp =>
      let out : CountriesPayload := ⟨topCountriesRows resp, nowStr⟩
      (set_cached r.1 now "top-countries" out CACHE_TTL, HttpResponse.payload out, 1)
    | Except.error e => (r.1, HttpResponse.errorJson e 500, 1)

-- ===================== helper lemmas: cache =====================

lemma set_cached_self {α : Type} (c : Cache α) (now : ℚ) (key : String) (v : α)
    (ttl : ℚ) : set_cached c now key v ttl key = some (now + ttl, v) := by
  simp [set_cached]

lemma get_cached_hit {α : Type} (c : Cache α) (now : ℚ) (key : String) (e : ℚ)
    (v : α) (hc : c key = some (e, v)) (hnow : ¬ e < now) :
    get_cached c now key = (c, some v) := by
  simp [get_cached, hc, hnow]

lemma get_cached_fst_ne {α : Type} (c : Cache α) (now : ℚ) (key k : String)
    (hk : k ≠ key) : (get_cached c now key).1 k = c k := by
  unfold get_cached
  cases hc : c key with
  | none => rfl
  | some p =>
    obtain ⟨ex, v⟩ := p
    dsimp only
    split
    · simp [hk]
    · rfl

lemma get_cached_fst_key {α : Type} (c : Cache α) (now : ℚ) (key : String) :
    (get_cached c now key).1 key = none ∨ (get_cached c now key).1 key = c key := by
  unfold get_cached
  cases hc : c key with
  | none => right; exact hc
  | some p =>
    obtain ⟨ex, v⟩ := p
    dsimp only
    split
    · left; simp
    · right; exact hc

-- ============ helper lemmas: decimal digits and Nat.repr / Int.repr ============

def IsDigitCh (c : Char) : Prop := 48 ≤ c.toNat ∧ c.toNat ≤ 57

lemma digitChar_toNat (k : ℕ) (h : k < 10) : (Nat.digitChar k).toNat = 48 + k := by
  interval_cases k <;> rfl

lemma toDigitsCore_shift (fuel : ℕ) : ∀ (n : ℕ) (ds : List Char),
    Nat.toDigitsCore 10 fuel n ds = Nat.toDigitsCore 10 fuel n [] ++ ds := by
  induction fuel with
  | zero => intro n ds; simp [Nat.toDigitsCore]
  | succ fuel ih =>
    intro n ds
    simp only [Nat.toDigitsCore]
    by_cases h : n / 10 = 0
    · simp [h]
    · simp only [h, if_false]
      rw [ih (n / 10) ((n % 10).digitChar :: ds), ih (n / 10) [(n % 10).digitChar]]
      simp

lemma toDigitsCore_digits (fuel : ℕ) : ∀ (n : ℕ) (ds : List Char),
    (∀ c ∈ ds, IsDigitCh c) → ∀ c ∈ Nat.toDigitsCore 10 fuel n ds, IsDigitCh c := by
  induction fuel with
  | zero => intro n ds h; simpa [Nat.toDigitsCore] using h
  | succ fuel ih =>
    intro n ds h
    have hd : IsDigitCh ((n % 10).digitChar) := by
      have hm : n % 10 < 10 := Nat.mod_lt _ (by norm_num)
      have := digitChar_toNat (n % 10) hm
      constructor <;> omega
    have hcons : ∀ c ∈ ((n % 10).digitChar :: ds), IsDigitCh c := by
      intro c hc
      rcases List.mem_cons.mp hc with rfl | hc
      · exact hd
      · exact h c hc
    simp only [Nat.toDigitsCore]
    by_cases h0 : n / 10 = 0
    · simpa [h0] using hcons
    · simp only [h0, if_false]
      exact ih (n / 10) _ hcons

lemma digitsVal_toDigitsCore (fuel : ℕ) : ∀ n, n < fuel →
    digitsVal (Nat.toDigitsCore 10 fuel n []) = n := by
  induction fuel with
  | zero => omega
  | succ fuel ih =>
    intro n hn
    simp only [Nat.toDigitsCore]
    by_cases h0 : n / 10 = 0
    · have hm : n % 10 < 10 := Nat.mod_lt _ (by norm_num)
      simp [h0, digitsVal, digitChar_toNat (n % 10) hm]
      omega
    · simp only [h0, if_false]
      rw [toDigitsCore_shift]
      have hlt : n / 10 < fuel := by omega
      have hih := ih (n / 10) hlt
      have hm : n % 10 < 10 := Nat.mod_lt _ (by norm_num)
      simp only [digitsVal, List.foldl_append] at *
      rw [hih]
      simp [digitChar_toNat (n % 10) hm]
      omega

lemma natRepr_data (n : ℕ) :
    (Nat.repr n).data = Nat.toDigitsCore 10 (n + 1) n [] := by
  simp [Nat.repr, Nat.toDigits, List.asString]

lemma natRepr_inj {n m : ℕ} (h : Nat.repr n = Nat.repr m) : n = m := by
  have hd := congrArg String.data h
  rw [natRepr_data, natRepr_data] at hd
  have h1 := digitsVal_toDigitsCore (n + 1) n (by omega)
  have h2 := digitsVal_toDigitsCore (m + 1) m (by omega)
  rw [hd] at h1
  omega

lemma natRepr_all_digits (n : ℕ) : ∀ c ∈ (Nat.repr n).data, IsDigitCh c := by
  rw [natRepr_data]
  exact toDigitsCore_digits (n + 1) n [] (by simp)

lemma intRepr_inj {a b : ℤ} (h : Int.repr a = Int.repr b) : a = b := by
  cases a with
  | ofNat n =>
    cases b with
    | ofNat m =>
      simp only [Int.repr] at h
      exact congrArg Int.ofNat (natRepr_inj h)
    | negSucc m =>
      simp only [Int.repr] at h
      exfalso
      have hd := congrArg String.data h
      rw [String.data_append] at hd
      have : '-' ∈ (Nat.repr n).data := by rw [hd]; simp
      have := natRepr_all_digits n '-' this
      simp [IsDigitCh] at this
  | negSucc n =>
    cases b with
    | ofNat m =>
      simp only [Int.repr] at h
      exfalso
      have hd := congrArg String.data h
      rw [String.data_append] at hd
      have : '-' ∈ (Nat.repr m).data := by rw [← hd]; simp
      have := natRepr_all_digits m '-' this
      simp [IsDigitCh] at this
    | negSucc m =>
      simp only [Int.repr] at h
      have hd := congrArg String.data h
      rw [String.data_append, String.data_append] at hd
      simp at hd
      have hs := natRepr_inj (String.ext hd)
      have : n = m := by omega
      exact congrArg Int.negSucc this

lemma intRepr_no_colon (a : ℤ) : ':' ∉ (Int.repr a).data := by
  cases a with
  | ofNat n =>
    intro hc
    have := natRepr_all_digits n ':' hc
    simp [IsDigitCh] at this
  | negSucc n =>
    intro hc
    simp only [Int.repr, String.data_append] at hc
    rcases List.mem_append.mp hc with hc | hc
    · simp at hc
    · have := natRepr_all_digits (n + 1) ':' hc
      simp [IsDigitCh] at this

-- Joining two colon-free segments with a colon separator is injective.
lemma colon_sep_inj : ∀ (a : List Char) {b : List Char} (a' : List Char)
    {b' : List Char}, ':' ∉ a → ':' ∉ a' →
    a ++ ':' :: b = a' ++ ':' :: b' → a = a' ∧ b = b' := by
  intro a
  induction a with
  | nil =>
    intro b a' b' _ ha' h
    cases a' with
    | nil => simpa using h
    | cons c t =>
      simp only [List.nil_append, List.cons_append, List.cons.injEq] at h
      exact absurd (h.1 ▸ List.mem_cons_self c t) ha'
  | cons c t ih =>
    intro b a' b' ha ha' h
    cases a' with
    | nil =>
      simp only [List.cons_append, List.nil_append, List.cons.injEq] at h
      exact absurd (h.1 ▸ List.mem_cons_self c t) ha
    | cons c' t' =>
      simp only [List.cons_append, List.cons.injEq] at h
      obtain ⟨rfl, h2⟩ := h
      have := ih t' (fun hm => ha (List.mem_cons_of_mem _ hm))
        (fun hm => ha' (List.mem_cons_of_mem _ hm)) h2
      exact ⟨by rw [this.1], this.2⟩

lemma toString_int (l : ℤ) : toString l = Int.repr l := rfl

lemma traffic_cache_key_data (s e : String) (l : ℤ) :
    (traffic_cache_key s e l).data =
      't' :: 'r' :: 'a' :: 'f' :: 'f' :: 'i' :: 'c' :: ':' ::
        (s.data ++ ':' :: (e.data ++ ':' :: (Int.repr l).data)) := by
  have h1 : "traffic:".data = ['t', 'r', 'a', 'f', 'f', 'i', 'c', ':'] := rfl
  have h2 : ":".data = [':'] := rfl
  simp [traffic_cache_key, String.data_append, h1, h2, toString_int]

-- ============ helper lemmas: sign of the exact decimal truncation ============

lemma tenpow_pos (e : ℤ) : (0 : ℚ) < (10 : ℚ) ^ e := zpow_pos (by norm_num) e

lemma val_nonneg_iff (m : ℕ) (e : ℤ) (b : Bool) :
    0 ≤ DecValue.val ⟨m, e, b⟩ ↔ (b = false ∨ m = 0) := by
  have hp := tenpow_pos e
  cases b
  · simp only [DecValue.val, cond_false]
    constructor
    · intro _; left; trivial
    · intro _; positivity
  · simp only [DecValue.val, cond_true]
    constructor
    · intro h
      by_contra hm
      push_neg at hm
      have h1 : (0 : ℚ) < (m : ℚ) := by
        exact_mod_cast Nat.pos_of_ne_zero hm.2
      nlinarith
    · intro h
      rcases h with h | h
      · exact absurd h (by simp)
      · rw [h]; norm_num

lemma truncMag_zero (e : ℤ) : truncMag 0 e = 0 := by
  unfold truncMag; split <;> simp

lemma truncDec_nonneg (d : DecValue) (h : 0 ≤ d.val) : 0 ≤ truncDec d := by
  obtain ⟨m, e, b⟩ := d
  cases b
  · simp [truncDec]
  · rcases (val_nonneg_iff m e true).mp h with h' | h'
    · exact absurd h' (by simp)
    · simp [truncDec, h', truncMag_zero]

lemma truncDec_neg_val (d : DecValue) (h : truncDec d < 0) : d.val < 0 := by
  obtain ⟨m, e, b⟩ := d
  cases b
  · simp [truncDec] at h; omega
  · simp only [truncDec, cond_true, Left.neg_neg_iff] at h
    have hm : 0 < m := by
      by_contra hm
      have h0 : m = 0 := by omega
      rw [h0, truncMag_zero] at h
      simp at h
    simp only [DecValue.val, cond_true]
    have h1 : (0 : ℚ) < (m : ℚ) := by exact_mod_cast hm
    have := tenpow_pos e
    nlinarith

-- ============ helper lemma: left fold of additions is a mapped sum ============

lemma foldl_add_eq_sum {β : Type} (f : β → ℤ) : ∀ (l : List β) (a : ℤ),
    l.foldl (fun t r => t + f r) a = a + (l.map f).sum := by
  intro l
  induction l with
  | nil => intro a; simp
  | cons x xs ih =>
    intro a
    simp only [List.foldl_cons, List.map_cons, List.sum_cons, ih (a + f x)]
    ring

-- ===================== claim theorems =====================

/-- C1 counterexample: with ttl T = 5 set at t0 = 0, a get at now = 5 has
now - t0 = 5 ≥ T, yet get_cached still returns the stored value (the code
expires only strictly after the deadline, `time.time() > expiry`), refuting
the claim that a read at now - t0 ≥ T is absent. -/
theorem cache_expiry_cex :
    (5 : ℚ) - 0 ≥ 5 ∧
    (get_cached (set_cached (emptyCache ℤ) 0 "k" 42 5) 5 "k").2 = some 42 := by
  constructor
  · norm_num
  · rw [get_cached_hit _ 5 "k" (0 + 5) 42 (set_cached_self ..) (by norm_num)]

/-- C1 (amended): a value stored via set_cached with ttl T at time t0 is
returned by get_cached at any now with now - t0 ≤ T; a get at now - t0 > T
returns absent; and after such an expired read, a subsequent set_cached with
a new value under the same key succeeds and the new value is retrievable
while fresh. -/
theorem cache_expiry {α : Type} (c : Cache α) (key : String) (v : α)
    (T t0 now : ℚ) :
    (now - t0 ≤ T → (get_cached (set_cached c t0 key v T) now key).2 = some v)
    ∧ (T < now - t0 → (get_cached (set_cached c t0 key v T) now key).2 = none)
    ∧ (∀ (v' : α) (t1 T' now' : ℚ), T < now - t0 → now' - t1 ≤ T' →
        (get_cached (set_cached ((get_cached (set_cached c t0 key v T) now key).1)
          t1 key v' T') now' key).2 = some v') := by
  refine ⟨?_, ?_, ?_⟩
  · intro h
    rw [get_cached_hit _ now key (t0 + T) v (set_cached_self ..) (by intro h2; linarith)]
  · intro h
    simp [get_cached, set_cached_self, show t0 + T < now by linarith]
  · intro v' t1 T' now' hexp h
    rw [get_cached_hit _ now' key (t1 + T') v' (set_cached_self ..) (by intro h2; linarith)]

/-- C1 witness: value 1 set at t0 = 0 with T = 5 is readable at now = 4,
absent at now = 6, and after that expired read a new value 2 set at t1 = 6
is readable at now = 7. -/
theorem cache_expiry_witness :
    (get_cached (set_cached (emptyCache ℤ) 0 "k" 1 5) 4 "k").2 = some 1
    ∧ (get_cached (set_cached (emptyCache ℤ) 0 "k" 1 5) 6 "k").2 = none
    ∧ (get_cached (set_cached ((get_cached (set_cached (emptyCache ℤ) 0 "k" 1 5)
        6 "k").1) 6 "k" 2 5) 7 "k").2 = some 2 :=
  ⟨(cache_expiry (emptyCache ℤ) "k" 1 5 0 4).1 (by norm_num),
   (cache_expiry (emptyCache ℤ) "k" 1 5 0 6).2.1 (by norm_num),
   (cache_expiry (emptyCache ℤ) "k" 1 5 0 6).2.2 2 6 5 7 (by norm_num) (by norm_num)⟩

/-- C2 counterexample: the traffic fingerprint is an f-string joined with
colons, so the distinct parameter tuples ("a:b", "c", 1) and ("a", "b:c", 1)
collide on the same cache key, refuting injectivity for arbitrary date
strings. -/
theorem traffic_fingerprint_cex :
    traffic_cache_key "a:b" "c" 1 = traffic_cache_key "a" "b:c" 1
    ∧ ¬("a:b" = "a" ∧ "c" = "b:c") := by decide

/-- C2 (amended): the traffic fingerprint is deterministic, and it is
injective on (start_date, end_date, limit) provided the two date strings
contain no ':' character (the limit, an integer, never prints one). -/
theorem traffic_fingerprint_det_inj :
    (∀ (s e : String) (l : ℤ), traffic_cache_key s e l = traffic_cache_key s e l)
    ∧ ∀ (s₁ e₁ : String) (l₁ : ℤ) (s₂ e₂ : String) (l₂ : ℤ),
      ':' ∉ s₁.data → ':' ∉ e₁.data → ':' ∉ s₂.data → ':' ∉ e₂.data →
      traffic_cache_key s₁ e₁ l₁ = traffic_cache_key s₂ e₂ l₂ →
      s₁ = s₂ ∧ e₁ = e₂ ∧ l₁ = l₂ := by
  refine ⟨fun s e l => rfl, ?_⟩
  intro s₁ e₁ l₁ s₂ e₂ l₂ hs1 he1 hs2 he2 h
  have hd := congrArg String.data h
  rw [traffic_cache_key_data, traffic_cache_key_data] at hd
  simp only [List.cons.injEq, true_and] at hd
  obtain ⟨hs, hrest⟩ := colon_sep_inj s₁.data s₂.data hs1 hs2 hd
  obtain ⟨he, hl⟩ := colon_sep_inj e₁.data e₂.data he1 he2 hrest
  exact ⟨String.ext hs, String.ext he, intRepr_inj (String.ext hl)⟩

/-- C2 witness: the injectivity part applied to the colon-free default dates
and limit 100, with every hypothesis discharged on concrete input. -/
theorem traffic_fingerprint_witness :
    "7daysAgo" = "7daysAgo" ∧ "today" = "today" ∧ (100 : ℤ) = 100 :=
  traffic_fingerprint_det_inj.2 "7daysAgo" "today" 100 "7daysAgo" "today" 100
    (by decide) (by decide) (by decide) (by decide) rfl

/-- C3: metric coercion is total — it yields an integer for every raw input —
and on the claimed inputs: absent ↦ 0, "12.9" ↦ 12, "abc" ↦ 0, "5" ↦ 5. -/
theorem coerce_metric_total :
    (∀ v : Option String, ∃ z : ℤ, coerceMetricOpt v = z)
    ∧ coerceMetricOpt none = 0
    ∧ coerceMetric "12.9" = 12
    ∧ coerceMetric "abc" = 0
    ∧ coerceMetric "5" = 5 :=
  ⟨fun v => ⟨coerceMetricOpt v, rfl⟩, rfl, by decide, by decide, by decide⟩

/-- C4 counterexample: the raw metric value "-5" is coerced to -5, a negative
integer, refuting the claim that every coercion result is non-negative. -/
theorem coerce_metric_nonneg_cex :
    coerceMetric "-5" = -5 ∧ coerceMetric "-5" < 0 := by decide

/-- C4 (amended): metric coercion yields 0 on an absent value, a non-negative
integer whenever the raw value parses to a non-negative number, and a
negative result can arise only from a raw value that parses to a negative
number. -/
theorem coerce_metric_sign :
    coerceMetricOpt none = 0
    ∧ (∀ (s : String) (d : DecValue),
        pyFloat? s = some (PyFloat.finite d) → 0 ≤ d.val → 0 ≤ coerceMetric s)
    ∧ (∀ s : String, coerceMetric s < 0 →
        ∃ d, pyFloat? s = some (PyFloat.finite d) ∧ d.val < 0) := by
  refine ⟨rfl, ?_, ?_⟩
  · intro s d h hv
    unfold coerceMetric intFloat?
    rw [h]
    simpa [pyIntOfFloat] using truncDec_nonneg d hv
  · intro s h
    unfold coerceMetric intFloat? at h
    cases hf : pyFloat? s with
    | none => rw [hf] at h; simp at h
    | some pf =>
      cases pf with
      | finite d =>
        rw [hf] at h
        simp only [Option.bind_some, pyIntOfFloat, Option.getD_some] at h
        exact ⟨d, rfl, truncDec_neg_val d h⟩
      | infinite b => rw [hf] at h; simp [pyIntOfFloat] at h
      | nan => rw [hf] at h; simp [pyIntOfFloat] at h

/-- C4 witness: "5" parses to the non-negative 5 and coerces to a
non-negative integer; "-5" coerces negatively and indeed parses negative. -/
theorem coerce_metric_sign_witness :
    0 ≤ coerceMetric "5"
    ∧ ∃ d, pyFloat? "-5" = some (PyFloat.finite d) ∧ d.val < 0 :=
  ⟨coerce_metric_sign.2.1 "5" ⟨5, 0, false⟩ (by decide) (by norm_num [DecValue.val]),
   coerce_metric_sign.2.2 "-5" (by decide)⟩

/-- C5: realtime-active normalization sums the coerced first metric value over
all raw rows; rows "3.0", "2.5", missing give totalActive = 5, and an empty
raw result gives totalActive = 0. -/
theorem realtime_active_aggregation :
    (∀ rows : List RawRow, realtimeActiveTotal rows
        = (rows.map (fun r => coerceFirstMetric r.metric_values)).sum)
    ∧ realtimeActiveTotal [⟨[], ["3.0"]⟩, ⟨[], ["2.5"]⟩, ⟨[], []⟩] = 5
    ∧ realtimeActiveTotal [] = 0 := by
  refine ⟨?_, by decide, by decide⟩
  intro rows
  simpa [realtimeActiveTotal] using
    foldl_add_eq_sum (fun r : RawRow => coerceFirstMetric r.metric_values) rows 0

/-- C6: traffic rows read dimensions positionally with the "(unknown)"
placeholder for missing positions: one dimension value where two are expected
yields {source: value, medium: "(unknown)", sessions: coerced}; zero
dimension values yield "(unknown)" for both. -/
theorem traffic_short_dimension_row :
    ∀ (v : String) (mv : List String),
      normalizeTrafficRow ⟨[v], mv⟩ = ⟨v, "(unknown)", coerceFirstMetric mv⟩
      ∧ normalizeTrafficRow ⟨[], mv⟩
        = ⟨"(unknown)", "(unknown)", coerceFirstMetric mv⟩ :=
  fun v mv => ⟨rfl, rfl⟩

/-- C7: each row-shaped normalizer (realtime-pages, urls, traffic,
top-countries) emits exactly one output row per input row, in input order,
with no re-sorting or truncation: lengths are preserved and the i-th output
is the normalization of the i-th input. -/
theorem row_endpoints_preserve_order :
    ∀ raw : List RawRow,
      ((realtimePagesRows raw).length = raw.length
        ∧ ∀ i : ℕ, (realtimePagesRows raw)[i]? = raw[i]?.map normalizePageRow)
      ∧ ((urlsRows raw).length = raw.length
        ∧ ∀ i : ℕ, (urlsRows raw)[i]? = raw[i]?.map normalizeUrlRow)
      ∧ ((trafficRows raw).length = raw.length
        ∧ ∀ i : ℕ, (trafficRows raw)[i]? = raw[i]?.map normalizeTrafficRow)
      ∧ ((topCountriesRows raw).length = raw.length
        ∧ ∀ i : ℕ, (topCountriesRows raw)[i]? = raw[i]?.map normalizeCountryRow) := by
  intro raw
  refine ⟨⟨?_, ?_⟩, ⟨?_, ?_⟩, ⟨?_, ?_⟩, ⟨?_, ?_⟩⟩ <;>
    simp [realtimePagesRows, urlsRows, trafficRows, topCountriesRows,
      List.getElem?_map]

/-- C8: on an unexpired cache hit for its fingerprint, every endpoint handler
returns exactly the stored payload with no upstream fetch: the result is the
untouched cache, the cached payload, and a fetch count of 0, for every fetch
closure alike. -/
theorem cache_hit_skips_fetch (now : ℚ) (ns : String) :
    (∀ (c : Cache ActivePayload) (e : ℚ) (v : ActivePayload),
      c "realtime-active" = some (e, v) → ¬ e < now →
      ∀ fetch, realtime_active c now ns fetch = (c, HttpResponse.payload v, 0))
    ∧ (∀ (c : Cache PagesPayload) (e : ℚ) (v : PagesPayload),
      c "realtime-pages" = some (e, v) → ¬ e < now →
      ∀ fetch, realtime_pages c now ns fetch = (c, HttpResponse.payload v, 0))
    ∧ (∀ (c : Cache UrlsPayload) (sd ed : Option String) (e : ℚ) (v : UrlsPayload),
      c (urls_cache_key (sd.getD "7daysAgo") (ed.getD "today")) = some (e, v) →
      ¬ e < now →
      ∀ fetch, urls_report c now ns sd ed fetch = (c, HttpResponse.payload v, 0))
    ∧ (∀ (c : Cache TrafficPayload) (sd ed ld : Option String) (lim : ℤ)
        (e : ℚ) (v : TrafficPayload),
      pyInt? (ld.getD "100") = some lim →
      c (traffic_cache_key (sd.getD "7daysAgo") (ed.getD "today") lim) = some (e, v) →
      ¬ e < now →
      ∀ fetch, traffic_report c now ns sd ed ld fetch
        = Except.ok (c, HttpResponse.payload v, 0))
    ∧ (∀ (c : Cache CountriesPayload) (e : ℚ) (v : CountriesPayload),
      c "top-countries" = some (e, v) → ¬ e < now →
      ∀ fetch, top_countries c now ns fetch = (c, HttpResponse.payload v, 0)) := by
  refine ⟨?_, ?_, ?_, ?_, ?_⟩
  · intro c e v hc hnow fetch
    simp only [realtime_active, get_cached_hit c now "realtime-active" e v hc hnow]
  · intro c e v hc hnow fetch
    simp only [realtime_pages, get_cached_hit c now "realtime-pages" e v hc hnow]
  · intro c sd ed e v hc hnow fetch
    simp only [urls_report, get_cached_hit c now _ e v hc hnow]
  · intro c sd ed ld lim e v hlim hc hnow fetch
    simp only [traffic_report, hlim, get_cached_hit c now _ e v hc hnow]
  · intro c e v hc hnow fetch
    simp only [top_countries, get_cached_hit c now "top-countries" e v hc hnow]

/-- C8 witness: concrete unexpired entries (expiry 5, read at now = 1) are
served by all five handlers with a failing fetch closure, which is never
consulted. -/
theorem cache_hit_skips_fetch_witness :
    realtime_active (fun _ => some (5, (⟨3, "t0"⟩ : ActivePayload))) 1 "t"
        (fun _ => Except.error "down")
      = ((fun _ => some (5, (⟨3, "t0"⟩ : ActivePayload))),
          HttpResponse.payload ⟨3, "t0"⟩, 0)
    ∧ realtime_pages (fun _ => some (5, (⟨[], "t0"⟩ : PagesPayload))) 1 "t"
        (fun _ => Except.error "down")
      = ((fun _ => some (5, (⟨[], "t0"⟩ : PagesPayload))),
          HttpResponse.payload ⟨[], "t0"⟩, 0)
    ∧ urls_report (fun _ => some (5, (⟨[], 0, "t0"⟩ : UrlsPayload))) 1 "t"
        none none (fun _ _ => Except.error "down")
      = ((fun _ => some (5, (⟨[], 0, "t0"⟩ : UrlsPayload))),
          HttpResponse.payload ⟨[], 0, "t0"⟩, 0)
    ∧ traffic_report (fun _ => some (5, (⟨[], 0, "t0"⟩ : TrafficPayload))) 1 "t"
        none none none (fun _ _ _ => Except.error "down")
      = Except.ok ((fun _ => some (5, (⟨[], 0, "t0"⟩ : TrafficPayload))),
          HttpResponse.payload ⟨[], 0, "t0"⟩, 0)
    ∧ top_countries (fun _ => some (5, (⟨[], "t0"⟩ : CountriesPayload))) 1 "t"
        (fun _ => Except.error "down")
      = ((fun _ => some (5, (⟨[], "t0"⟩ : CountriesPayload))),
          HttpResponse.payload ⟨[], "t0"⟩, 0) :=
  ⟨(cache_hit_skips_fetch 1 "t").1 _ 5 ⟨3, "t0"⟩ rfl (by decide) _,
   (cache_hit_skips_fetch 1 "t").2.1 _ 5 ⟨[], "t0"⟩ rfl (by decide) _,
   (cache_hit_skips_fetch 1 "t").2.2.1 _ none none 5 ⟨[], 0, "t0"⟩ rfl (by decide) _,
   (cache_hit_skips_fetch 1 "t").2.2.2.1 _ none none none 100 5 ⟨[], 0, "t0"⟩
     (by decide) rfl (by decide) _,
   (cache_hit_skips_fetch 1 "t").2.2.2.2 _ 5 ⟨[], "t0"⟩ rfl (by decide) _⟩

/-- C9 counterexample: with an expired entry under the fingerprint at request
time, a failing fetch leaves the cache different from its pre-request state —
the lookup lazily dropped the stale entry — refuting "the cache state is left
unchanged" as stated. -/
theorem upstream_error_cache_changed_cex :
    (realtime_active (fun _ => some (5, (⟨7, "t0"⟩ : ActivePayload))) 10 "t"
        (fun _ => Except.error "boom")).1 "realtime-active" = none
    ∧ (fun _ => some (5, (⟨7, "t0"⟩ : ActivePayload)) : Cache ActivePayload)
        "realtime-active" = some (5, ⟨7, "t0"⟩)
    ∧ (realtime_active (fun _ => some (5, (⟨7, "t0"⟩ : ActivePayload))) 10 "t"
        (fun _ => Except.error "boom")).2.1
      = HttpResponse.errorJson "boom" 500 := by decide

/-- C9 (amended): on an upstream fetch failure, every handler performs exactly
one fetch (no retry), writes no cache entry — the post-request cache is
exactly the post-lookup cache, which agrees with the pre-request cache on
every other key and at the fingerprint is either unchanged or lazily cleared
of an expired entry — and responds with the failure's message verbatim under
status 500. -/
theorem upstream_error_no_write (now : ℚ) (ns msg : String) :
    (∀ (α : Type) (c : Cache α) (key k : String), k ≠ key →
      (get_cached c now key).1 k = c k)
    ∧ (∀ (α : Type) (c : Cache α) (key : String),
      (get_cached c now key).1 key = none ∨ (get_cached c now key).1 key = c key)
    ∧ (∀ (c : Cache ActivePayload) (fetch : Unit → Except String (List RawRow)),
      (get_cached c now "realtime-active").2 = none →
      fetch () = Except.error msg →
      realtime_active c now ns fetch
        = ((get_cached c now "realtime-active").1, HttpResponse.errorJson msg 500, 1))
    ∧ (∀ (c : Cache PagesPayload) (fetch : Unit → Except String (List RawRow)),
      (get_cached c now "realtime-pages").2 = none →
      fetch () = Except.error msg →
      realtime_pages c now ns fetch
        = ((get_cached c now "realtime-pages").1, HttpResponse.errorJson msg 500, 1))
    ∧ (∀ (c : Cache UrlsPayload) (sd ed : Option String)
        (fetch : String → String → Except String (List RawRow)),
      (get_cached c now (urls_cache_key (sd.getD "7daysAgo") (ed.getD "today"))).2 = none →
      fetch (sd.getD "7daysAgo") (ed.getD "today") = Except.error msg →
      urls_report c now ns sd ed fetch
        = ((get_cached c now (urls_cache_key (sd.getD "7daysAgo") (ed.getD "today"))).1,
            HttpResponse.errorJson msg 500, 1))
    ∧ (∀ (c : Cache TrafficPayload) (sd ed ld : Option String) (lim : ℤ)
        (fetch : String → String → ℤ → Except String (List RawRow)),
      pyInt? (ld.getD "100") = some lim →
      (get_cached c now
        (traffic_cache_key (sd.getD "7daysAgo") (ed.getD "today") lim)).2 = none →
      fetch (sd.getD "7daysAgo") (ed.getD "today") lim = Except.error msg →
      traffic_report c now ns sd ed ld fetch
        = Except.ok ((get_cached c now
            (traffic_cache_key (sd.getD "7daysAgo") (ed.getD "today") lim)).1,
            HttpResponse.errorJson msg 500, 1))
    ∧ (∀ (c : Cache CountriesPayload) (fetch : Unit → Except String (List RawRow)),
      (get_cached c now "top-countries").2 = none →
      fetch () = Except.error msg →
      top_countries c now ns fetch
        = ((get_cached c now "top-countries").1, HttpResponse.errorJson msg 500, 1)) := by
  refine ⟨?_, ?_, ?_, ?_, ?_, ?_, ?_⟩
  · intro α c key k hk
    exact get_cached_fst_ne c now key k hk
  · intro α c key
    exact get_cached_fst_key c now key
  · intro c fetch hmiss hf
    rcases hg : get_cached c now "realtime-active" with ⟨c1, r2⟩
    rw [hg] at hmiss
    simp only at hmiss
    subst hmiss
    simp only [realtime_active, hg, hf]
  · intro c fetch hmiss hf
    rcases hg : get_cached c now "realtime-pages" with ⟨c1, r2⟩
    rw [hg] at hmiss
    simp only at hmiss
    subst hmiss
    simp only [realtime_pages, hg, hf]
  · intro c sd ed fetch hmiss hf
    rcases hg : get_cached c now (urls_cache_key (sd.getD "7daysAgo") (ed.getD "today"))
      with ⟨c1, r2⟩
    rw [hg] at hmiss
    simp only at hmiss
    subst hmiss
    simp only [urls_report, hg, hf]
  · intro c sd ed ld lim fetch hlim hmiss hf
    rcases hg : get_cached c now
        (traffic_cache_key (sd.getD "7daysAgo") (ed.getD "today") lim) with ⟨c1, r2⟩
    rw [hg] at hmiss
    simp only at hmiss
    subst hmiss
    simp only [traffic_report, hlim, hg, hf]
  · intro c fetch hmiss hf
    rcases hg : get_cached c now "top-countries" with ⟨c1, r2⟩
    rw [hg] at hmiss
    simp only at hmiss
    subst hmiss
    simp only [top_countries, hg, hf]

/-- C9 witness: concrete cache-miss requests whose fetch fails with "boom"
produce the verbatim 500 error payload with one fetch and no write, and the
lookup-state lemmas evaluated on a concrete cache. -/
theorem upstream_error_no_write_witness :
    (get_cached (fun _ => some (1, (0 : ℤ)) : Cache ℤ) 0 "k").1 "j"
      = (fun _ => some (1, (0 : ℤ)) : Cache ℤ) "j"
    ∧ ((get_cached (fun _ => some (1, (0 : ℤ)) : Cache ℤ) 0 "k").1 "k" = none
      ∨ (get_cached (fun _ => some (1, (0 : ℤ)) : Cache ℤ) 0 "k").1 "k"
        = (fun _ => some (1, (0 : ℤ)) : Cache ℤ) "k")
    ∧ realtime_active (fun _ => none) 0 "t" (fun _ => Except.error "boom")
      = ((get_cached (fun _ => none : Cache ActivePayload) 0 "realtime-active").1,
          HttpResponse.errorJson "boom" 500, 1)
    ∧ realtime_pages (fun _ => none) 0 "t" (fun _ => Except.error "boom")
      = ((get_cached (fun _ => none : Cache PagesPayload) 0 "realtime-pages").1,
          HttpResponse.errorJson "boom" 500, 1)
    ∧ urls_report (fun _ => none) 0 "t" none none (fun _ _ => Except.error "boom")
      = ((get_cached (fun _ => none : Cache UrlsPayload) 0
            (urls_cache_key "7daysAgo" "today")).1,
          HttpResponse.errorJson "boom" 500, 1)
    ∧ traffic_report (fun _ => none) 0 "t" none none none
        (fun _ _ _ => Except.error "boom")
      = Except.ok ((get_cached (fun _ => none : Cache TrafficPayload) 0
            (traffic_cache_key "7daysAgo" "today" 100)).1,
          HttpResponse.errorJson "boom" 500, 1)
    ∧ top_countries (fun _ => none) 0 "t" (fun _ => Except.error "boom")
      = ((get_cached (fun _ => none : Cache CountriesPayload) 0 "top-countries").1,
          HttpResponse.errorJson "boom" 500, 1) :=
  ⟨(upstream_error_no_write 0 "t" "boom").1 ℤ _ "k" "j" (by decide),
   (upstream_error_no_write 0 "t" "boom").2.1 ℤ _ "k",
   (upstream_error_no_write 0 "t" "boom").2.2.1 _ _ rfl rfl,
   (upstream_error_no_write 0 "t" "boom").2.2.2.1 _ _ rfl rfl,
   (upstream_error_no_write 0 "t" "boom").2.2.2.2.1 _ none none _ rfl rfl,
   (upstream_error_no_write 0 "t" "boom").2.2.2.2.2.1 _ none none none 100 _
     (by decide) rfl rfl,
   (upstream_error_no_write 0 "t" "boom").2.2.2.2.2.2 _ _ rfl rfl⟩

/-- C10: a traffic request whose limit parameter fails integer parsing raises
before the cache lookup, fetch, or normalization: for every cache state and
fetch closure the handler is an uncaught exception, not a JSON error
payload. -/
theorem traffic_bad_limit_uncaught :
    ∀ (c : Cache TrafficPayload) (now : ℚ) (ns : String) (sd ed : Option String)
      (lim : String) (fetch : String → String → ℤ → Except String (List RawRow)),
      pyInt? lim = none →
      traffic_report c now ns sd ed (some lim) fetch = Except.error "ValueError" := by
  intro c now ns sd ed lim fetch hlim
  simp only [traffic_report, Option.getD_some, hlim]

/-- C10 witness: limit = "abc" is rejected by integer parsing and the traffic
handler aborts with the uncaught exception on a concrete cache and fetch. -/
theorem traffic_bad_limit_witness :
    traffic_report (emptyCache TrafficPayload) 0 "t" none none (some "abc")
      (fun _ _ _ => Except.ok []) = Except.error "ValueError" :=
  traffic_bad_limit_uncaught (emptyCache TrafficPayload) 0 "t" none none "abc"
    (fun _ _ _ => Except.ok []) (by decide)
